import Mathlib

/-!
Shallow embedding of the crawl and scrape core of src/app.py
(WhatsApp Link Scraper and Validator).

Python strings are modelled as lists of characters. The outputs of the
external libraries BeautifulSoup (the list of anchor href values, the text
regex matches) and requests (HTTP response outcomes) are inputs of the
model; the program logic that operates on them is translated from the
source. Threaded execution is modelled by an explicit interleaving machine
whose atomic actions are exactly the individually lock-protected methods of
ThreadSafeCrawlerState, plus a sequential (single-worker) run function.
-/

namespace AppPy

/-- Python strings, modelled as lists of characters. -/
abbrev Str := List Char

/-- The WHATSAPP_DOMAIN constant (src/app.py line 71). -/
def WHATSAPP_DOMAIN : Str := "https://chat.whatsapp.com/".data

/-! ## urllib.parse: urlparse, urljoin (the parts the source uses) -/

/-- Characters urllib.parse accepts inside a URL scheme: letters, digits,
plus, minus and dot. -/
def isSchemeChar (c : Char) : Bool :=
  c.isAlpha || c.isDigit || c == '+' || c == '-' || c == '.'

/-- The five components of urllib.parse.urlparse that the source reads. -/
structure PyUrl where
  scheme : Str
  netloc : Str
  path : Str
  query : Str
  fragment : Str
deriving DecidableEq

/-- Scheme step of urlsplit: the part before the first colon, when nonempty
and made only of scheme characters, is the scheme, lowercased; the second
component is the remainder. -/
def splitScheme (s : Str) : Str × Str :=
  let pre := s.takeWhile (fun c => c != ':')
  if pre.length < s.length ∧ 0 < pre.length ∧ pre.all isSchemeChar = true then
    (pre.map Char.toLower, s.drop (pre.length + 1))
  else ([], s)

/-- Netloc step of urlsplit: after a leading double slash, the netloc runs
until the first slash, question mark or hash. -/
def splitNetloc (s : Str) : Str × Str :=
  if s.take 2 = ['/', '/'] then
    let nl := (s.drop 2).takeWhile (fun c => c != '/' && c != '?' && c != '#')
    (nl, (s.drop 2).drop nl.length)
  else ([], s)

/-- Python str.split(c, 1) as used by urlsplit: when c occurs, the part
before its first occurrence and the part after it; otherwise the whole
string and the empty string. -/
def splitAtChar (c : Char) (s : Str) : Str × Str :=
  if c ∈ s then (s.takeWhile (fun x => x != c), (s.dropWhile (fun x => x != c)).drop 1)
  else (s, [])

/-- urllib.parse.urlparse restricted to the components the source reads:
scheme, then netloc, then the fragment is split off at the first hash, then
the query at the first question mark; the rest is the path. -/
def urlparse (s : Str) : PyUrl :=
  let sr := splitScheme s
  let nr := splitNetloc sr.2
  let fr := splitAtChar '#' nr.2
  let qr := splitAtChar '?' fr.1
  ⟨sr.1, nr.1, qr.1, qr.2, fr.2⟩

/-- The f-string rebuild scheme://netloc + path used at src/app.py
lines 182 and 192 (and for normalized keys). -/
def schemeHostPath (p : PyUrl) : Str :=
  p.scheme ++ (':' :: '/' :: '/' :: []) ++ p.netloc ++ p.path

/-- Directory part of a path: everything up to and including the final
slash, used when resolving a plain relative reference. -/
def dirPart (path : Str) : Str :=
  (path.reverse.dropWhile (fun c => c != '/')).reverse

/-- urllib.parse.urljoin restricted to the reference shapes the crawler
meets: an absolute reference with its own scheme, a network-path reference
(leading double slash), an absolute-path reference (leading slash), and a
plain relative reference resolved against the directory of the base path.
Dot-segment normalization is not modelled; no claim depends on it. -/
def urljoin (base url : Str) : Str :=
  if url = [] then base
  else if (splitScheme url).1 ≠ [] then url
  else if url.take 2 = ['/', '/'] then (urlparse base).scheme ++ (':' :: []) ++ url
  else
    let b := urlparse base
    if url.take 1 = ['/'] then b.scheme ++ (':' :: '/' :: '/' :: []) ++ b.netloc ++ url
    else b.scheme ++ (':' :: '/' :: '/' :: []) ++ b.netloc ++ dirPart b.path ++ url

/-- The normalized visited key of src/app.py line 409:
urljoin(current_url, urlparse(current_url).path or the slash string). -/
def normalizeUrl (u : Str) : Str :=
  urljoin u (if (urlparse u).path = [] then ['/'] else (urlparse u).path)

/-- Python str.replace applied as netloc.replace removing every occurrence
of the four characters w w w dot, scanning left to right (fuel is the
string length). -/
def replaceWWWAux : Nat → Str → Str
  | 0, s => s
  | _ + 1, [] => []
  | n + 1, c :: t =>
    if ('w' :: 'w' :: 'w' :: '.' :: []).isPrefixOf (c :: t)
    then replaceWWWAux n (List.drop 4 (c :: t))
    else c :: replaceWWWAux n t

/-- netloc.replace removing all www. occurrences (src/app.py lines 420,
470, 515). -/
def replaceWWW (s : Str) : Str := replaceWWWAux s.length s

/-! ## ThreadSafeCrawlerState (src/app.py lines 358 to 391) -/

/-- The politeness_delay field value (src/app.py line 364). -/
def politeness_delay : ℚ := 1

/-- ThreadSafeCrawlerState. The lock makes each single method atomic, so
the model represents each method as one pure state transition; the
defaultdict of floats is a total function defaulting to zero. -/
structure CrawlerState where
  visited_urls : Finset Str
  scraped_whatsapp_links : Finset Str
  domain_last_request_time : Str → ℚ

/-- The state built by the class constructor. -/
def initCrawlerState : CrawlerState :=
  { visited_urls := ∅, scraped_whatsapp_links := ∅,
    domain_last_request_time := fun _ => 0 }

/-- add_visited_url (lines 366 to 368): inserts the key and returns no
value. -/
def CrawlerState.add_visited_url (st : CrawlerState) (k : Str) : CrawlerState :=
  { st with visited_urls := insert k st.visited_urls }

/-- is_visited (lines 370 to 372). -/
def CrawlerState.is_visited (st : CrawlerState) (k : Str) : Bool :=
  decide (k ∈ st.visited_urls)

/-- add_scraped_link (lines 374 to 379): inserts and reports whether the
link was new, in one critical section. -/
def CrawlerState.add_scraped_link (st : CrawlerState) (l : Str) : CrawlerState × Bool :=
  if l ∉ st.scraped_whatsapp_links then
    ({ st with scraped_whatsapp_links := insert l st.scraped_whatsapp_links }, true)
  else (st, false)

/-- get_scraped_links (lines 381 to 383). -/
def CrawlerState.get_scraped_links (st : CrawlerState) : Finset Str :=
  st.scraped_whatsapp_links

/-- update_last_request_time (lines 385 to 387). -/
def CrawlerState.update_last_request_time (st : CrawlerState) (d : Str) (t : ℚ) :
    CrawlerState :=
  { st with domain_last_request_time := fun x => if x = d then t else st.domain_last_request_time x }

/-- get_last_request_time (lines 389 to 391). -/
def CrawlerState.get_last_request_time (st : CrawlerState) (d : Str) : ℚ :=
  st.domain_last_request_time d

/-! ## scrape_whatsapp_links_from_page (src/app.py lines 170 to 247) -/

/-- One fetched HTTP response at the granularity the extractor consumes:
the href values of the anchor tags BeautifulSoup finds (method 1), whether
WHATSAPP_DOMAIN occurs in the page text, the matches of the chat link regex
in the page text (method 2), and whether the lowercased text contains the
substring settimeout (the timer heuristic of line 219). -/
structure Response where
  anchors : List Str
  hasWaDomainInText : Bool
  textMatches : List Str
  hasSetTimeout : Bool
deriving DecidableEq

/-- Method 1 body (lines 178 to 182): an href that starts with
WHATSAPP_DOMAIN is parsed and re-added as scheme://netloc + path. An absent
or empty href fails the guard, as in the source, because the prefix test
fails on it. -/
def addAnchorLink (links : Finset Str) (href : Str) : Finset Str :=
  if WHATSAPP_DOMAIN.isPrefixOf href then insert (schemeHostPath (urlparse href)) links
  else links

/-- The re.sub of line 187 stripping the trailing run of the punctuation
characters dot, comma, semicolon, bang, question mark, double quote, single
quote, angle brackets and closing parenthesis. -/
def stripTrailingPunct (s : Str) : Str :=
  (s.reverse.dropWhile (fun c =>
    c == '.' || c == ',' || c == ';' || c == '!' || c == '?' || c == '"' ||
    c == '\'' || c == '<' || c == '>' || c == ')')).reverse

/-- The endswith test of line 188 for the three known page extensions. -/
def endsWithKnownExt (s : Str) : Bool :=
  (".html".data).isSuffixOf s || (".htm".data).isSuffixOf s || (".php".data).isSuffixOf s

/-- The re.sub of line 188 removing a trailing dot followed by two to four
letters at the very end of the string. -/
def stripTrailingExt (s : Str) : Str :=
  let r := s.reverse
  let run := r.takeWhile Char.isAlpha
  if 2 ≤ run.length ∧ run.length ≤ 4 ∧ (r.drop run.length).take 1 = ['.'] then
    (r.drop (run.length + 1)).reverse
  else s

/-- The cleanup chain of lines 187 to 189 applied to one text match: strip
trailing punctuation, strip a short extension unless the link ends in a
known page extension, then keep everything before the first ampersand. -/
def cleanLink (m : Str) : Str :=
  let c1 := stripTrailingPunct m
  let c2 := if endsWithKnownExt c1 then c1 else stripTrailingExt c1
  c2.takeWhile (fun c => c != '&')

/-- Method 2 body (lines 186 to 192): clean the match, and when the path
without slashes is longer than 15 characters add scheme://netloc + path. -/
def addTextMatchLink (links : Finset Str) (m : Str) : Finset Str :=
  let p := urlparse (cleanLink m)
  if 15 < (p.path.filter (fun c => c != '/')).length then insert (schemeHostPath p) links
  else links

/-- The helper _extract_links_from_response (lines 174 to 192): method 1
over all anchors, then, when WHATSAPP_DOMAIN occurs in the text, method 2
over all regex matches, accumulating into the enclosing link set. -/
def extract_links_from_response (links : Finset Str) (r : Response) : Finset Str :=
  let l1 := r.anchors.foldl addAnchorLink links
  if r.hasWaDomainInText then r.textMatches.foldl addTextMatchLink l1 else l1

/-- Failure outcomes of one requests call: the exceptions the source
catches (timeout, an HTTP status error raised by raise_for_status, and
other connection errors). -/
inductive FetchErr
  | timeoutE
  | httpError (code : Nat)
  | connectionError
deriving DecidableEq

/-- scrape_whatsapp_links_from_page (lines 170 to 247). The network is an
oracle giving the outcome of the n-th HTTP request the call performs. The
result is the link set the function returns together with the number of
HTTP requests it issued. On a first-request failure every exception is
caught and the empty set collected so far is returned. When
wait_for_dynamic is set, the timer heuristic of line 221 is the source
expression timer_detected or True, so the function always sleeps and
re-fetches exactly once; a failure of the second request is caught and the
first-pass links are returned. -/
def scrape_whatsapp_links_from_page (oracle : Nat → Except FetchErr Response)
    (wait_for_dynamic : Bool) : Finset Str × Nat :=
  match oracle 0 with
  | .error _ => (∅, 1)
  | .ok r1 =>
    let links1 := extract_links_from_response ∅ r1
    if wait_for_dynamic then
      if r1.hasSetTimeout || true then
        match oracle 1 with
        | .error _ => (links1, 2)
        | .ok r2 => (extract_links_from_response links1 r2, 2)
      else (links1, 1)
    else (links1, 1)

/-! ## Gateway Resolver (spec section 4.6; no counterpart in src/app.py) -/

/-- Modelled from the spec: src/app.py contains no Gateway Resolver, so the
gateway page is modelled from spec section 4.6 as the outcome of matching
each of the four known deferred-navigation idioms against the fetched page:
a timer-scheduled location assignment, an unconditional location
assignment, a window-open call, and a directly visible anchor to the target
domain. -/
structure GatewayPage where
  timerLocationAssign : Option Str
  locationAssign : Option Str
  windowOpenCall : Option Str
  anchorToTargetDomain : Option Str
deriving DecidableEq

/-- Kind tag of a gateway resolution for downstream reporting. -/
inductive ResolvedKind
  | resolvedK
  | unresolvedK
deriving DecidableEq

/-- Modelled from the spec: resolve(gatewayLink) fetches the gateway page
and tries the four idioms in order; the first match wins; when none match
the gateway link itself is returned, tagged unresolved; a fetch failure
after retries yields none. -/
def resolveGateway (gatewayLink : Str) (fetched : Except FetchErr GatewayPage) :
    Option (Str × ResolvedKind) :=
  match fetched with
  | .error _ => none
  | .ok p =>
    match p.timerLocationAssign with
    | some t => some (t, .resolvedK)
    | none =>
      match p.locationAssign with
      | some t => some (t, .resolvedK)
      | none =>
        match p.windowOpenCall with
        | some t => some (t, .resolvedK)
        | none =>
          match p.anchorToTargetDomain with
          | some t => some (t, .resolvedK)
          | none => some (gatewayLink, .unresolvedK)

/-! ## Interleaving machine for the visited check and mark
(crawler_worker, src/app.py lines 399 to 432).

Each atomic action is one lock-protected ThreadSafeCrawlerState method or
one Queue operation; between two actions of one worker any other worker may
run. Queue entries stand for already normalized URLs (the normalization of
line 409 is a local, lock-free computation). The fetch action records the
scrape call of line 432 in a fetch log. -/

/-- Program counter of one worker inside its loop iteration. -/
inductive VPc
  | deq
  | check
  | mark
  | fetch
  | vdone
deriving DecidableEq

/-- Local state of one worker: its dequeued URL and its position. -/
structure VWorker where
  url : Str
  pc : VPc

/-- State shared by all workers: the URL queue, the
ThreadSafeCrawlerState, and the log of pages fetched. -/
structure VShared where
  queue : List Str
  cs : CrawlerState
  fetchLog : List Str

/-- One atomic action of a worker: dequeue (line 399), is_visited check
(line 412), add_visited_url mark (line 417), or the page fetch of the
scrape call (line 432). -/
def vstep (sh : VShared) (w : VWorker) : VShared × VWorker :=
  match w.pc with
  | .deq =>
    match sh.queue with
    | [] => (sh, w)
    | u :: rest => ({ sh with queue := rest }, { w with url := u, pc := .check })
  | .check =>
    if sh.cs.is_visited w.url then (sh, { w with pc := .vdone })
    else (sh, { w with pc := .mark })
  | .mark => ({ sh with cs := sh.cs.add_visited_url w.url }, { w with pc := .fetch })
  | .fetch => ({ sh with fetchLog := sh.fetchLog ++ [w.url] }, { w with pc := .vdone })
  | .vdone => (sh, w)

/-- Run the atomic action of the worker with the given index. -/
def vrunStep (st : VShared × List VWorker) (i : Nat) : VShared × List VWorker :=
  match st.2[i]? with
  | none => st
  | some w =>
    let r := vstep st.1 w
    (r.1, st.2.set i r.2)

/-- Run a schedule: a list of worker indices, each performing its next
atomic action in turn. -/
def vrun (sched : List Nat) (st : VShared × List VWorker) : VShared × List VWorker :=
  sched.foldl vrunStep st

/-- One worker iteration run to completion with no interleaving: dequeue,
check, mark, fetch, built from the same atomic actions. -/
def vAtomicIter (sh : VShared) : VShared :=
  let s1 := vstep sh ⟨[], .deq⟩
  let s2 := vstep s1.1 s1.2
  let s3 := vstep s2.1 s2.2
  (vstep s3.1 s3.2).1

/-- n serialized worker iterations. -/
def vAtomicRun : Nat → VShared → VShared
  | 0, sh => sh
  | n + 1, sh => vAtomicRun n (vAtomicIter sh)

/-! ## Interleaving machine for the politeness section
(crawler_worker, src/app.py lines 419 to 425).

Atomic actions: get_last_request_time, the local elapsed-time check with
its sleep, update_last_request_time, and the HTTP request that follows. The
global clock models time.time(); a sleep advances the clock to the target
wake time. -/

/-- Program counter of one worker inside the politeness section. -/
inductive PPc
  | readT
  | sleepT
  | writeT
  | reqT
  | pdone
deriving DecidableEq

/-- Local state of one worker: its request domain, the last-request time it
read, and its position. -/
structure PWorker where
  domain : Str
  tLast : ℚ
  pc : PPc

/-- Shared state: the ThreadSafeCrawlerState, the clock, and the log of
issued requests with their times. -/
structure PShared where
  cs : CrawlerState
  clock : ℚ
  reqLog : List (Str × ℚ)

/-- One atomic action of the politeness section: read the last-request
time (line 421), compare the elapsed time against politeness_delay and
sleep the difference when needed (lines 422 to 424), write the new time
(line 425), then issue the request. -/
def pstep (sh : PShared) (w : PWorker) : PShared × PWorker :=
  match w.pc with
  | .readT => (sh, { w with tLast := sh.cs.get_last_request_time w.domain, pc := .sleepT })
  | .sleepT =>
    if sh.clock - w.tLast < politeness_delay then
      ({ sh with clock := w.tLast + politeness_delay }, { w with pc := .writeT })
    else (sh, { w with pc := .writeT })
  | .writeT =>
    ({ sh with cs := sh.cs.update_last_request_time w.domain sh.clock }, { w with pc := .reqT })
  | .reqT => ({ sh with reqLog := sh.reqLog ++ [(w.domain, sh.clock)] }, { w with pc := .pdone })
  | .pdone => (sh, w)

/-- Run the atomic action of the worker with the given index. -/
def prunStep (st : PShared × List PWorker) (i : Nat) : PShared × List PWorker :=
  match st.2[i]? with
  | none => st
  | some w =>
    let r := pstep st.1 w
    (r.1, st.2.set i r.2)

/-- Run a schedule of worker indices. -/
def prun (sched : List Nat) (st : PShared × List PWorker) : PShared × List PWorker :=
  sched.foldl prunStep st

/-- One politeness-then-request iteration for one domain, run with no
interleaving, built from the same atomic actions. -/
def pAtomicIter (sh : PShared) (d : Str) : PShared :=
  let s1 := pstep sh ⟨d, 0, .readT⟩
  let s2 := pstep s1.1 s1.2
  let s3 := pstep s2.1 s2.2
  (pstep s3.1 s3.2).1

/-- Sequential run: each list entry is one request iteration, preceded by a
nonnegative ambient advance of the clock. -/
def pSeqRun : List (Str × ℚ) → PShared → PShared
  | [], sh => sh
  | (d, eps) :: rest, sh => pSeqRun rest (pAtomicIter { sh with clock := sh.clock + eps } d)

/-- The politeness property between two logged requests: requests to the
same origin are at least politeness_delay apart. -/
def gapOK (a b : Str × ℚ) : Prop := a.1 = b.1 → a.2 + politeness_delay ≤ b.2

/-! ## The crawler loop, sequentially
(crawler_worker and crawl_website, src/app.py lines 394 to 605). -/

/-- Outcome of the separate link-discovery request of lines 457 to 462:
its content type gate and the anchor href values it yields. -/
structure DiscoveryPage where
  contentTypeHtml : Bool
  anchors : List Str
deriving DecidableEq

/-- Per-URL outcome of the network for one worker iteration: the value
returned by scrape_whatsapp_links_from_page, which catches its own
exceptions (scrapeOk false means its fetch failed and the returned list is
empty), and the outcome of the link-discovery request (none means that
request raised and was caught at lines 478 to 481). -/
structure PageFetch where
  scrapeOk : Bool
  scrapeLinks : List Str
  discovery : Option DiscoveryPage
deriving DecidableEq

/-- Whole sequential crawl state: the URL queue with depths, the shared
ThreadSafeCrawlerState, the clock, the log of scrape calls, the log of
queue puts made during discovery, the page counter of progress_callback,
and the stop event. -/
structure CrawlState where
  queue : List (Str × Nat)
  st : CrawlerState
  clock : ℚ
  fetchLog : List Str
  enqueueLog : List (Str × Nat)
  page_count : Nat
  stop : Bool

/-- Discovery loop body (lines 463 to 477) for one href: skip an empty
href, resolve against the current URL, keep http or https links on the
base domain without fragment, and enqueue at depth + 1 when the normalized
form is not yet visited. -/
def discoverHref (st : CrawlerState) (base_domain u : Str) (depth : Nat)
    (acc : List (Str × Nat)) (href : Str) : List (Str × Nat) :=
  if href = [] then acc
  else
    let abs := urljoin u href
    let pa := urlparse abs
    if (pa.scheme = "http".data ∨ pa.scheme = "https".data) ∧
        replaceWWW pa.netloc = base_domain ∧ pa.fragment = [] then
      if st.is_visited (normalizeUrl abs) = false then acc ++ [(abs, depth + 1)]
      else acc
    else acc

/-- One iteration of crawler_worker (lines 394 to 488) run by a single
worker: dequeue; discard beyond max_depth; discard when visited; mark
visited; politeness wait and last-request update; scrape; record the
whatsapp links that start with WHATSAPP_DOMAIN; progress_callback
increments the page counter and sets the stop event at max_pages (lines
531 to 541); then, within the depth limit, the discovery fetch enqueues
new same-domain links. -/
def crawler_worker_step (web : Str → PageFetch) (max_depth : Option Nat)
    (max_pages : Nat) (base_domain : Str) (s : CrawlState) : CrawlState :=
  match s.queue with
  | [] => s
  | (u, depth) :: rest =>
    let s0 := { s with queue := rest }
    if (match max_depth with | some md => decide (md < depth) | none => false) = true then s0
    else
      if s0.st.is_visited (normalizeUrl u) then s0
      else
        let st1 := s0.st.add_visited_url (normalizeUrl u)
        let d := replaceWWW (urlparse u).netloc
        let tLast := st1.get_last_request_time d
        let clock1 := if s0.clock - tLast < politeness_delay then tLast + politeness_delay
                      else s0.clock
        let st2 := st1.update_last_request_time d clock1
        let pf := web u
        let links := if pf.scrapeOk then pf.scrapeLinks else []
        let st3 := links.foldl
          (fun acc l => if WHATSAPP_DOMAIN.isPrefixOf l then (acc.add_scraped_link l).1 else acc)
          st2
        let pc1 := s0.page_count + 1
        let stop1 := s0.stop || decide (max_pages ≤ pc1)
        let doDiscover := match max_depth with | some md => decide (depth < md) | none => true
        let newQ :=
          if doDiscover then
            match pf.discovery with
            | none => []
            | some dp =>
              if dp.contentTypeHtml then dp.anchors.foldl (discoverHref st3 base_domain u depth) []
              else []
          else []
        { queue := rest ++ newQ, st := st3, clock := clock1,
          fetchLog := s0.fetchLog ++ [u], enqueueLog := s0.enqueueLog ++ newQ,
          page_count := pc1, stop := stop1 }

/-- The sequential crawl loop: iterate worker steps until the stop event is
set or the queue is empty, bounded by fuel. -/
def crawlRun (web : Str → PageFetch) (max_depth : Option Nat) (max_pages : Nat)
    (base_domain : Str) : Nat → CrawlState → CrawlState
  | 0, s => s
  | n + 1, s =>
    if s.stop = true ∨ s.queue = [] then s
    else crawlRun web max_depth max_pages base_domain n
      (crawler_worker_step web max_depth max_pages base_domain s)

/-- The seed adjustment of lines 504 to 506: prepend the https scheme when
the seed lacks one. -/
def adjustSeed (start_url : Str) : Str :=
  if ("http://".data).isPrefixOf start_url || ("https://".data).isPrefixOf start_url
  then start_url else "https://".data ++ start_url

/-- crawl_website (lines 490 to 605) run by a single worker: reject a blank
seed or one without netloc, compute the base domain, enqueue the seed at
depth 0 and run the loop; c0 is the wall-clock time at crawl start and fuel
bounds the loop iterations. -/
def crawl_website (web : Str → PageFetch) (fuel : Nat) (start_url : Str)
    (max_depth : Option Nat) (max_pages : Nat) (c0 : ℚ) : CrawlState :=
  if start_url.all Char.isWhitespace then
    { queue := [], st := initCrawlerState, clock := c0, fetchLog := [],
      enqueueLog := [], page_count := 0, stop := true }
  else
    let su := adjustSeed start_url
    if (urlparse su).netloc = [] then
      { queue := [], st := initCrawlerState, clock := c0, fetchLog := [],
        enqueueLog := [], page_count := 0, stop := true }
    else
      crawlRun web max_depth max_pages (replaceWWW (urlparse su).netloc) fuel
        { queue := [(su, 0)], st := initCrawlerState, clock := c0,
          fetchLog := [], enqueueLog := [], page_count := 0, stop := false }

/-- The value crawl_website returns (line 598): the scraped link set of the
final state. -/
def crawl_website_links (web : Str → PageFetch) (fuel : Nat) (start_url : Str)
    (max_depth : Option Nat) (max_pages : Nat) (c0 : ℚ) : Finset Str :=
  (crawl_website web fuel start_url max_depth max_pages c0).st.get_scraped_links

/-- Textual removal of the query and fragment of a URL string: the part
before the first hash, then the part before the first question mark. Two
URL strings differ only in query or fragment exactly when this map
identifies them. -/
def stripQueryFragment (s : Str) : Str :=
  (s.takeWhile (fun c => c != '#')).takeWhile (fun c => c != '?')

/-! ## Concrete example inputs used by the counterexamples and witnesses -/

/-- A URL that the seed page of c1web links to twice. -/
def c1u : Str := "https://e.co/dup".data

/-- Machine start state with c1u queued twice and two idle workers. -/
def c1vinit : VShared × List VWorker :=
  (⟨[c1u, c1u], initCrawlerState, []⟩, [⟨[], .deq⟩, ⟨[], .deq⟩])

/-- Seed URL of the crawl showing duplicate enqueueing. -/
def c1seed : Str := "https://e.co/".data

/-- A web in which the seed page carries two identical anchors to c1u, so
discovery enqueues c1u twice. -/
def c1web : Str → PageFetch := fun u =>
  if u = c1seed then ⟨true, [], some ⟨true, [c1u, c1u]⟩⟩
  else ⟨true, [], some ⟨true, []⟩⟩

/-- Shared machine state in which c1u is already recorded as visited. -/
def c1wsh : VShared := ⟨[], ⟨{c1u}, ∅, fun _ => 0⟩, []⟩

/-- A worker about to run its visited check on c1u. -/
def c1ww : VWorker := ⟨c1u, .check⟩

/-- The single origin used by the politeness counterexample. -/
def c2d : Str := "e.co".data

/-- Politeness machine start state: clock at 5, no request recorded yet,
two workers about to request from the same origin. -/
def c2pinit : PShared × List PWorker :=
  (⟨initCrawlerState, 5, []⟩, [⟨c2d, 0, .readT⟩, ⟨c2d, 0, .readT⟩])

/-- The key both interleaved check-then-mark callers process. -/
def c3u : Str := "https://s.ex/p".data

/-- Machine start state with c3u queued twice and two idle workers. -/
def c3vinit : VShared × List VWorker :=
  (⟨[c3u, c3u], initCrawlerState, []⟩, [⟨[], .deq⟩, ⟨[], .deq⟩])

/-- A response carrying one whatsapp group anchor. -/
def c4resp : Response :=
  ⟨["https://chat.whatsapp.com/ABCDEFGHIJKLMNOP".data], false, [], false⟩

/-- A network where the first request times out and a second request would
succeed with c4resp. -/
def c4oracle : Nat → Except FetchErr Response :=
  fun n => if n = 0 then .error .timeoutE else .ok c4resp

/-- Seed URL of the max_pages boundary counterexample. -/
def c5seed : Str := "https://e.co/".data

/-- The crawlable child link of the seed page. -/
def c5child : Str := "https://e.co/a".data

/-- A web whose seed page has one same-domain child anchor. -/
def c5web : Str → PageFetch := fun u =>
  if u = c5seed then ⟨true, [], some ⟨true, [c5child]⟩⟩
  else ⟨true, [], some ⟨true, []⟩⟩

/-- First response of the deferred-content witness. -/
def c6resp1 : Response :=
  ⟨["https://chat.whatsapp.com/ABCDEFGHIJKLMNOP".data], false, [], true⟩

/-- Response after the wait, carrying a different link. -/
def c6resp2 : Response :=
  ⟨["https://chat.whatsapp.com/QRSTUVWXYZABCDEF".data], false, [], false⟩

/-- A network answering the first fetch with c6resp1 and the re-fetch with
c6resp2. -/
def c6oracle : Nat → Except FetchErr Response :=
  fun n => if n = 0 then .ok c6resp1 else .ok c6resp2

/-- The URL whose scrape fetch fails in the failure-locality witness. -/
def c7u : Str := "https://e.co/bad".data

/-- A web where every scrape fetch fails and discovery raises. -/
def c7web : Str → PageFetch := fun _ => ⟨false, [], none⟩

/-- Crawl state about to process c7u. -/
def c7s : CrawlState :=
  ⟨[(c7u, 0)], initCrawlerState, 0, [], [], 0, false⟩

/-- A gateway page in which none of the four idioms matches. -/
def c9page : GatewayPage := ⟨none, none, none, none⟩

/-- The gateway link being resolved in the witness. -/
def c9link : Str := "https://gw.ex/go/123".data

/-- A response whose text holds one regex match with trailing punctuation,
a query and a fragment on the anchor. -/
def c10resp : Response :=
  ⟨["https://chat.whatsapp.com/ABCDEFGHIJKLMNOP?x=1#frag".data], true,
   ["https://chat.whatsapp.com/QRSTUVWXYZABCDEF)".data], false⟩

/-- A network answering every request with c10resp. -/
def c10oracle : Nat → Except FetchErr Response := fun _ => .ok c10resp

/-- The link the anchor of c10resp produces after the rebuild. -/
def c10l : Str := "https://chat.whatsapp.com/ABCDEFGHIJKLMNOP".data

/-! ## General lemmas about the extraction accumulator -/

/-- A fold of a conditional-insert function distributes over the initial
set. -/
theorem foldl_union_init {α : Type} (f : Finset Str → α → Finset Str)
    (hf : ∀ s a, f s a = s ∪ f ∅ a) :
    ∀ (l : List α) (s : Finset Str), l.foldl f s = s ∪ l.foldl f ∅ := by
  intro l
  induction l with
  | nil => intro s; simp
  | cons a t ih =>
    intro s
    simp only [List.foldl_cons]
    rw [ih (f s a), ih (f ∅ a), hf s a, Finset.union_assoc]

/-- Method 1 adds the same links whatever set it starts from. -/
theorem addAnchorLink_eq (s : Finset Str) (href : Str) :
    addAnchorLink s href = s ∪ addAnchorLink ∅ href := by
  unfold addAnchorLink
  split
  · simp [Finset.insert_eq, Finset.union_comm]
  · simp

/-- Method 2 adds the same links whatever set it starts from. -/
theorem addTextMatchLink_eq (s : Finset Str) (m : Str) :
    addTextMatchLink s m = s ∪ addTextMatchLink ∅ m := by
  unfold addTextMatchLink
  dsimp only
  split
  · simp [Finset.insert_eq, Finset.union_comm]
  · simp

/-- The helper pass equals the starting set united with the links the pass
extracts from the response alone. -/
theorem extract_links_from_response_union (links : Finset Str) (r : Response) :
    extract_links_from_response links r =
      links ∪ extract_links_from_response ∅ r := by
  have hA : ∀ s, r.anchors.foldl addAnchorLink s = s ∪ r.anchors.foldl addAnchorLink ∅ :=
    fun s => foldl_union_init addAnchorLink addAnchorLink_eq r.anchors s
  have hT : ∀ s, r.textMatches.foldl addTextMatchLink s =
      s ∪ r.textMatches.foldl addTextMatchLink ∅ :=
    fun s => foldl_union_init addTextMatchLink addTextMatchLink_eq r.textMatches s
  unfold extract_links_from_response
  cases hg : r.hasWaDomainInText
  · simpa using hA links
  · simp only [if_true]
    rw [hA links, hT (links ∪ r.anchors.foldl addAnchorLink ∅),
      hT (r.anchors.foldl addAnchorLink ∅), Finset.union_assoc]

/-! ## Claim theorems -/

/-- C8: the extraction pass is a pure function of the fetched content, and
running it a second time on the same response adds nothing: the link set is
unchanged (src/app.py lines 174 to 192). -/
theorem c8_extraction_idempotent (links : Finset Str) (r : Response) :
    extract_links_from_response (extract_links_from_response links r) r =
      extract_links_from_response links r := by
  rw [extract_links_from_response_union links r,
    extract_links_from_response_union (links ∪ extract_links_from_response ∅ r) r,
    Finset.union_assoc, Finset.union_self]

/-- C6: with wait_for_dynamic enabled and both requests succeeding, the
scraper performs exactly one additional re-fetch (two requests in total)
and returns the union of the links extracted from the first response and
from the response after the wait (src/app.py lines 205 to 239). -/
theorem c6_deferred_refetch_union (oracle : Nat → Except FetchErr Response)
    (r1 r2 : Response) (h0 : oracle 0 = .ok r1) (h1 : oracle 1 = .ok r2) :
    scrape_whatsapp_links_from_page oracle true =
      (extract_links_from_response ∅ r1 ∪ extract_links_from_response ∅ r2, 2) := by
  unfold scrape_whatsapp_links_from_page
  rw [h0]
  simp only [h1, Bool.or_true, if_true]
  rw [extract_links_from_response_union (extract_links_from_response ∅ r1) r2]

/-- Witness for C6 at a concrete network. -/
theorem c6_deferred_refetch_union_witness :
    scrape_whatsapp_links_from_page c6oracle true =
      (extract_links_from_response ∅ c6resp1 ∪ extract_links_from_response ∅ c6resp2, 2) :=
  c6_deferred_refetch_union c6oracle c6resp1 c6resp2 rfl rfl

/-- C4 (amended): the scraper performs no retry at all: when its single
fetch attempt fails with any exception (timeout, HTTP status error of any
class, or connection error) it surfaces the failure for that URL at once,
having issued exactly one request and collected no links (src/app.py lines
194 to 246; the retry strategy of session_factory, lines 547 to 552, is
commented out). -/
theorem c4_single_attempt_no_retry (oracle : Nat → Except FetchErr Response)
    (e : FetchErr) (w : Bool) (h : oracle 0 = .error e) :
    scrape_whatsapp_links_from_page oracle w = (∅, 1) := by
  unfold scrape_whatsapp_links_from_page
  rw [h]

/-- Witness for the amended C4 at a concrete network. -/
theorem c4_single_attempt_no_retry_witness :
    scrape_whatsapp_links_from_page c4oracle false = (∅, 1) :=
  c4_single_attempt_no_retry c4oracle .timeoutE false rfl

/-- C4 counterexample: the first request times out (a transient failure),
a second request would have succeeded and produced a link, yet the scraper
issues exactly one request and returns no links, so no retry with backoff
happens. -/
theorem c4_counterexample_no_retry :
    scrape_whatsapp_links_from_page c4oracle false = (∅, 1) ∧
    c4oracle 0 = .error .timeoutE ∧
    c4oracle 1 = .ok c4resp ∧
    extract_links_from_response ∅ c4resp ≠ ∅ := by
  refine ⟨rfl, rfl, rfl, ?_⟩
  decide

/-- C9: when none of the four deferred-navigation idioms matches a
successfully fetched gateway page, the resolver returns the gateway link
itself tagged unresolved rather than discarding it, and a network failure
yields none, an outcome distinct from the no-idiom-matched one
(Gateway Resolver modelled from spec section 4.6; absent from src/app.py). -/
theorem c9_gateway_fallback_unresolved (g : Str) (p : GatewayPage) (e : FetchErr)
    (h1 : p.timerLocationAssign = none) (h2 : p.locationAssign = none)
    (h3 : p.windowOpenCall = none) (h4 : p.anchorToTargetDomain = none) :
    resolveGateway g (.ok p) = some (g, .unresolvedK) ∧
    resolveGateway g (.error e) = none ∧
    resolveGateway g (.error e) ≠ resolveGateway g (.ok p) := by
  unfold resolveGateway
  simp [h1, h2, h3, h4]

/-- Witness for C9 at a concrete gateway page. -/
theorem c9_gateway_fallback_unresolved_witness :
    resolveGateway c9link (.ok c9page) = some (c9link, .unresolvedK) ∧
    resolveGateway c9link (.error .timeoutE) = none ∧
    resolveGateway c9link (.error .timeoutE) ≠ resolveGateway c9link (.ok c9page) :=
  c9_gateway_fallback_unresolved c9link c9page .timeoutE rfl rfl rfl rfl

/-! ## Lemmas about the components of a parsed URL -/

/-- Char.ofNat of a valid codepoint keeps its numeric value. -/
theorem char_toNat_ofNat_valid (n : Nat) (h : n.isValidChar) :
    (Char.ofNat n).toNat = n := by
  rw [Char.ofNat, dif_pos h]
  rfl

/-- A character whose lowercase form lies below code 97 already equals that
form: lowering only produces codes 97 to 122 on changed characters. -/
theorem toLower_low (c d : Char) (hd : d.toNat < 97) (h : Char.toLower c = d) :
    c = d := by
  simp only [Char.toLower] at h
  split at h
  · exfalso
    rename_i hc
    have hv : (c.toNat + 32).isValidChar := Or.inl (by omega)
    have he := char_toNat_ofNat_valid (c.toNat + 32) hv
    rw [h] at he
    omega
  · exact h

/-- The scheme component of splitScheme: each component lemma of urlparse
holds by unfolding. -/
theorem urlparse_scheme (t : Str) : (urlparse t).scheme = (splitScheme t).1 := rfl

/-- The netloc component of urlparse. -/
theorem urlparse_netloc (t : Str) :
    (urlparse t).netloc = (splitNetloc (splitScheme t).2).1 := rfl

/-- The path component of urlparse. -/
theorem urlparse_path (t : Str) :
    (urlparse t).path =
      (splitAtChar '?' (splitAtChar '#' (splitNetloc (splitScheme t).2).2).1).1 := rfl

/-- The query component of urlparse. -/
theorem urlparse_query (t : Str) :
    (urlparse t).query =
      (splitAtChar '?' (splitAtChar '#' (splitNetloc (splitScheme t).2).2).1).2 := rfl

/-- The fragment component of urlparse. -/
theorem urlparse_fragment (t : Str) :
    (urlparse t).fragment = (splitAtChar '#' (splitNetloc (splitScheme t).2).2).2 := rfl

/-- A non scheme character below code 97 never occurs in a parsed scheme. -/
theorem not_mem_splitScheme_fst (s : Str) (c0 : Char) (h97 : c0.toNat < 97)
    (hsc : isSchemeChar c0 = false) : c0 ∉ (splitScheme s).1 := by
  unfold splitScheme
  dsimp only
  split
  · rename_i hcond
    intro hmem
    rcases List.mem_map.1 hmem with ⟨c, hc, hlow⟩
    have hceq : c = c0 := toLower_low c c0 h97 hlow
    subst hceq
    have hall := (List.all_eq_true.1 hcond.2.2) c hc
    rw [hsc] at hall
    exact Bool.noConfusion hall
  · simp

/-- A character rejected by the netloc predicate never occurs in a parsed
netloc. -/
theorem not_mem_splitNetloc_fst (s : Str) (c0 : Char)
    (hc : (c0 != '/' && c0 != '?' && c0 != '#') = false) :
    c0 ∉ (splitNetloc s).1 := by
  unfold splitNetloc
  dsimp only
  split
  · intro hmem
    have h := List.mem_takeWhile_imp hmem
    rw [hc] at h
    exact Bool.noConfusion h
  · simp

/-- The split character never occurs in the first part of the split. -/
theorem not_mem_splitAtChar_fst (c : Char) (s : Str) : c ∉ (splitAtChar c s).1 := by
  unfold splitAtChar
  split
  · intro hmem
    have h := List.mem_takeWhile_imp hmem
    simp at h
  · rename_i hnot
    exact hnot

/-- The first part of a split is a subset of the input. -/
theorem splitAtChar_fst_subset (c : Char) (s : Str) : (splitAtChar c s).1 ⊆ s := by
  unfold splitAtChar
  split
  · exact List.takeWhile_subset _
  · exact fun x hx => hx

/-- When the split character is absent, splitAtChar leaves the string whole
with an empty second part. -/
theorem splitAtChar_not_mem (c : Char) (s : Str) (h : c ∉ s) :
    splitAtChar c s = (s, []) := by
  unfold splitAtChar
  rw [if_neg h]

/-- The remainder after the scheme is a subset of the input. -/
theorem splitScheme_snd_subset (s : Str) : (splitScheme s).2 ⊆ s := by
  unfold splitScheme
  dsimp only
  split
  · exact List.drop_subset _ _
  · exact fun x hx => hx

/-- The remainder after the netloc is a subset of the input. -/
theorem splitNetloc_snd_subset (s : Str) : (splitNetloc s).2 ⊆ s := by
  unfold splitNetloc
  dsimp only
  split
  · exact fun x hx => List.drop_subset _ _ (List.drop_subset _ _ hx)
  · exact fun x hx => hx

/-- takeWhile keeps a list whole when the predicate holds everywhere. -/
theorem takeWhile_of_all {p : Char → Bool} :
    ∀ l : Str, (∀ x ∈ l, p x = true) → l.takeWhile p = l := by
  intro l
  induction l with
  | nil => intro _; rfl
  | cons a t ih =>
    intro h
    simp [List.takeWhile_cons, h a (List.mem_cons_self a t),
      ih (fun x hx => h x (List.mem_cons_of_mem a hx))]

/-- Method 1 on one href either inserts a rebuilt link or leaves the set
unchanged. -/
theorem addAnchorLink_cases (s : Finset Str) (a : Str) :
    addAnchorLink s a = insert (schemeHostPath (urlparse a)) s ∨
    addAnchorLink s a = s := by
  unfold addAnchorLink
  split
  · exact Or.inl rfl
  · exact Or.inr rfl

/-- Method 2 on one match either inserts a rebuilt link or leaves the set
unchanged. -/
theorem addTextMatchLink_cases (s : Finset Str) (m : Str) :
    addTextMatchLink s m = insert (schemeHostPath (urlparse (cleanLink m))) s ∨
    addTextMatchLink s m = s := by
  unfold addTextMatchLink
  dsimp only
  split
  · exact Or.inl rfl
  · exact Or.inr rfl

/-- Every link method 1 accumulates beyond its starting set is a rebuilt
scheme://netloc + path. -/
theorem mem_foldl_addAnchorLink (l : Str) :
    ∀ (anchors : List Str) (s : Finset Str), l ∈ anchors.foldl addAnchorLink s →
      l ∈ s ∨ ∃ t, l = schemeHostPath (urlparse t) := by
  intro anchors
  induction anchors with
  | nil => intro s h; exact Or.inl h
  | cons a tl ih =>
    intro s h
    rw [List.foldl_cons] at h
    rcases addAnchorLink_cases s a with hc | hc <;> rw [hc] at h
    · rcases ih _ h with h1 | h2
      · rcases Finset.mem_insert.1 h1 with he | hs
        · exact Or.inr ⟨a, he⟩
        · exact Or.inl hs
      · exact Or.inr h2
    · exact ih s h

/-- Every link method 2 accumulates beyond its starting set is a rebuilt
scheme://netloc + path. -/
theorem mem_foldl_addTextMatchLink (l : Str) :
    ∀ (ms : List Str) (s : Finset Str), l ∈ ms.foldl addTextMatchLink s →
      l ∈ s ∨ ∃ t, l = schemeHostPath (urlparse t) := by
  intro ms
  induction ms with
  | nil => intro s h; exact Or.inl h
  | cons a tl ih =>
    intro s h
    rw [List.foldl_cons] at h
    rcases addTextMatchLink_cases s a with hc | hc <;> rw [hc] at h
    · rcases ih _ h with h1 | h2
      · rcases Finset.mem_insert.1 h1 with he | hs
        · exact Or.inr ⟨cleanLink a, he⟩
        · exact Or.inl hs
      · exact Or.inr h2
    · exact ih s h

/-- Every link the extraction pass accumulates beyond its starting set is a
rebuilt scheme://netloc + path. -/
theorem mem_extract_shape (l : Str) (links : Finset Str) (r : Response)
    (h : l ∈ extract_links_from_response links r) :
    l ∈ links ∨ ∃ t, l = schemeHostPath (urlparse t) := by
  unfold extract_links_from_response at h
  dsimp only at h
  by_cases hg : r.hasWaDomainInText = true
  · rw [if_pos hg] at h
    rcases mem_foldl_addTextMatchLink l r.textMatches _ h with h1 | h2
    · exact mem_foldl_addAnchorLink l r.anchors links h1
    · exact Or.inr h2
  · rw [if_neg hg] at h
    exact mem_foldl_addAnchorLink l r.anchors links h

/-- Every link the single-page scraper returns is a rebuilt
scheme://netloc + path. -/
theorem mem_scrape_shape (oracle : Nat → Except FetchErr Response) (w : Bool) (l : Str)
    (hl : l ∈ (scrape_whatsapp_links_from_page oracle w).1) :
    ∃ t, l = schemeHostPath (urlparse t) := by
  unfold scrape_whatsapp_links_from_page at hl
  rcases ho : oracle 0 with e | r1 <;> rw [ho] at hl
  · simp at hl
  · dsimp only at hl
    cases w
    · simp only [Bool.false_eq_true, if_false] at hl
      rcases mem_extract_shape l ∅ r1 hl with h1 | h2
      · exact absurd h1 (Finset.not_mem_empty l)
      · exact h2
    · simp only [Bool.or_true, if_true] at hl
      rcases ho1 : oracle 1 with e2 | r2 <;> rw [ho1] at hl
      · rcases mem_extract_shape l ∅ r1 hl with h1 | h2
        · exact absurd h1 (Finset.not_mem_empty l)
        · exact h2
      · rcases mem_extract_shape l (extract_links_from_response ∅ r1) r2 hl with h1 | h2
        · rcases mem_extract_shape l ∅ r1 h1 with h3 | h4
          · exact absurd h3 (Finset.not_mem_empty l)
          · exact h4
        · exact h2

/-- No question mark and no hash occurs in a rebuilt
scheme://netloc + path. -/
theorem schemeHostPath_no_query_fragment (t : Str) :
    '?' ∉ schemeHostPath (urlparse t) ∧ '#' ∉ schemeHostPath (urlparse t) := by
  constructor <;>
  · intro hmem
    simp only [schemeHostPath, List.mem_append] at hmem
    rcases hmem with ((hs | hm) | hn) | hp
    · first
      | exact not_mem_splitScheme_fst t '?' (by decide) (by decide)
          (by rw [urlparse_scheme t] at hs; exact hs)
      | exact not_mem_splitScheme_fst t '#' (by decide) (by decide)
          (by rw [urlparse_scheme t] at hs; exact hs)
    · simp at hm
    · first
      | exact not_mem_splitNetloc_fst _ '?' (by decide)
          (by rw [urlparse_netloc t] at hn; exact hn)
      | exact not_mem_splitNetloc_fst _ '#' (by decide)
          (by rw [urlparse_netloc t] at hn; exact hn)
    · rw [urlparse_path t] at hp
      first
      | exact not_mem_splitAtChar_fst '?' _ hp
      | exact not_mem_splitAtChar_fst '#' _
          (splitAtChar_fst_subset '?' _ hp)

/-- A string without question mark and hash reparses with empty query and
fragment. -/
theorem urlparse_no_query_fragment (l : Str) (h1 : '?' ∉ l) (h2 : '#' ∉ l) :
    (urlparse l).query = [] ∧ (urlparse l).fragment = [] := by
  have hn2 : (splitNetloc (splitScheme l).2).2 ⊆ l :=
    fun x hx => splitScheme_snd_subset l (splitNetloc_snd_subset _ hx)
  have hf : '#' ∉ (splitNetloc (splitScheme l).2).2 := fun hx => h2 (hn2 hx)
  have hfrag := splitAtChar_not_mem '#' _ hf
  have hq : '?' ∉ (splitNetloc (splitScheme l).2).2 := fun hx => h1 (hn2 hx)
  constructor
  · rw [urlparse_query l, hfrag]
    rw [splitAtChar_not_mem '?' _ hq]
  · rw [urlparse_fragment l, hfrag]

/-- Textual query and fragment removal fixes a string without question
mark and hash. -/
theorem stripQueryFragment_id (s : Str) (h1 : '?' ∉ s) (h2 : '#' ∉ s) :
    stripQueryFragment s = s := by
  unfold stripQueryFragment
  have e1 : s.takeWhile (fun c => c != '#') = s :=
    takeWhile_of_all s (fun x hx => by
      have hne : x ≠ '#' := fun he => h2 (he ▸ hx)
      simpa using hne)
  rw [e1]
  exact takeWhile_of_all s (fun x hx => by
    have hne : x ≠ '?' := fun he => h1 (he ▸ hx)
    simpa using hne)

/-- C10: every link the single-page scraper returns is rebuilt as
scheme://netloc + path, so it contains no question mark and no hash,
reparses with empty query and fragment, and two returned links that agree
after textually removing query and fragment are equal (src/app.py lines
174 to 192). -/
theorem c10_no_query_or_fragment (oracle : Nat → Except FetchErr Response)
    (w : Bool) (l l2 : Str)
    (hl : l ∈ (scrape_whatsapp_links_from_page oracle w).1)
    (hl2 : l2 ∈ (scrape_whatsapp_links_from_page oracle w).1) :
    ('?' ∉ l ∧ '#' ∉ l) ∧ (urlparse l).query = [] ∧ (urlparse l).fragment = [] ∧
    (stripQueryFragment l2 = stripQueryFragment l → l2 = l) := by
  rcases mem_scrape_shape oracle w l hl with ⟨t, ht⟩
  rcases mem_scrape_shape oracle w l2 hl2 with ⟨t2, ht2⟩
  have h1 := schemeHostPath_no_query_fragment t
  have hA : '?' ∉ l := by rw [ht]; exact h1.1
  have hB : '#' ∉ l := by rw [ht]; exact h1.2
  have h2 := schemeHostPath_no_query_fragment t2
  have hA2 : '?' ∉ l2 := by rw [ht2]; exact h2.1
  have hB2 : '#' ∉ l2 := by rw [ht2]; exact h2.2
  refine ⟨⟨hA, hB⟩, (urlparse_no_query_fragment l hA hB).1,
    (urlparse_no_query_fragment l hA hB).2, ?_⟩
  intro hst
  calc l2 = stripQueryFragment l2 := (stripQueryFragment_id l2 hA2 hB2).symm
    _ = stripQueryFragment l := hst
    _ = l := stripQueryFragment_id l hA hB

/-- Witness for C10 at a concrete network and link. -/
theorem c10_no_query_or_fragment_witness :
    ('?' ∉ c10l ∧ '#' ∉ c10l) ∧
    (urlparse c10l).query = [] ∧ (urlparse c10l).fragment = [] ∧
    (stripQueryFragment c10l = stripQueryFragment c10l → c10l = c10l) :=
  c10_no_query_or_fragment c10oracle false c10l c10l (by decide) (by decide)

/-! ## The visited check-then-mark machine -/

/-- A serialized worker iteration dequeues one URL and either skips it when
visited, or marks it and fetches it. -/
theorem vAtomicIter_eq (sh : VShared) :
    vAtomicIter sh =
      match sh.queue with
      | [] => sh
      | u :: rest =>
        if sh.cs.is_visited u then { sh with queue := rest }
        else { queue := rest, cs := sh.cs.add_visited_url u,
               fetchLog := sh.fetchLog ++ [u] } := by
  rcases sh with ⟨q, cs, log⟩
  cases q with
  | nil => rfl
  | cons u rest => cases hv : cs.is_visited u <;> simp [vAtomicIter, vstep, hv]

/-- Serialized iterations preserve the exactly-once invariant: the fetch
log is duplicate free and every fetched URL is recorded as visited. -/
theorem vAtomicIter_inv (sh : VShared)
    (h1 : sh.fetchLog.Nodup)
    (h2 : ∀ l ∈ sh.fetchLog, l ∈ sh.cs.visited_urls) :
    (vAtomicIter sh).fetchLog.Nodup ∧
    ∀ l ∈ (vAtomicIter sh).fetchLog, l ∈ (vAtomicIter sh).cs.visited_urls := by
  rw [vAtomicIter_eq]
  rcases hq : sh.queue with _ | ⟨u, rest⟩
  · exact ⟨h1, h2⟩
  · cases hv : sh.cs.is_visited u
    · have hnv : u ∉ sh.cs.visited_urls := by
        unfold CrawlerState.is_visited at hv
        exact of_decide_eq_false hv
      have hu : u ∉ sh.fetchLog := fun hmem => hnv (h2 u hmem)
      simp only [hv, Bool.false_eq_true, if_false]
      constructor
      · simp [List.nodup_append, h1, hu]
      · intro l hl
        rcases List.mem_append.1 hl with h | h
        · exact Finset.mem_insert_of_mem (h2 l h)
        · simp only [List.mem_singleton] at h
          subst h
          exact Finset.mem_insert_self l _
    · simp only [hv, if_true]
      exact ⟨h1, h2⟩

/-- The exactly-once invariant holds along any number of serialized
iterations. -/
theorem vAtomicRun_inv : ∀ (n : Nat) (sh : VShared),
    sh.fetchLog.Nodup → (∀ l ∈ sh.fetchLog, l ∈ sh.cs.visited_urls) →
    (vAtomicRun n sh).fetchLog.Nodup := by
  intro n
  induction n with
  | zero => intro sh h1 _; exact h1
  | succ n ih =>
    intro sh h1 h2
    have h := vAtomicIter_inv sh h1 h2
    exact ih _ h.1 h.2

/-- C1 (amended): once a key is recorded in the Visited Set, any worker
whose is_visited check runs afterwards skips it without touching the shared
state; and when each worker runs its dequeue-check-mark-fetch iteration
without interleaving (as a single worker does), no URL appears more than
once in the fetch log. The check (line 412) and the mark (line 417) are,
however, separate critical sections, so the exactly-once property does not
extend to interleaved workers. -/
theorem c1_visited_exactly_once_serialized :
    (∀ (n : Nat) (q : List Str),
      (vAtomicRun n ⟨q, initCrawlerState, []⟩).fetchLog.Nodup) ∧
    (∀ (sh : VShared) (w : VWorker), w.pc = .check → sh.cs.is_visited w.url = true →
      vstep sh w = (sh, { w with pc := .vdone })) := by
  constructor
  · intro n q
    exact vAtomicRun_inv n ⟨q, initCrawlerState, []⟩ List.nodup_nil
      (by intro l hl; cases hl)
  · intro sh w hpc hv
    rcases w with ⟨url, pc⟩
    subst hpc
    simp [vstep, hv]

/-- Witness for the amended C1 at concrete inputs. -/
theorem c1_visited_exactly_once_serialized_witness :
    (vAtomicRun 2 ⟨[c1u, c1u], initCrawlerState, []⟩).fetchLog.Nodup ∧
    vstep c1wsh c1ww = (c1wsh, { c1ww with pc := .vdone }) :=
  ⟨c1_visited_exactly_once_serialized.1 2 [c1u, c1u],
   c1_visited_exactly_once_serialized.2 c1wsh c1ww rfl (by decide)⟩

/-- C1 counterexample: the visited check and the mark are separate atomic
actions, so with a key queued twice (the discovery loop of line 477 puts a
URL once per anchor, as the crawl of c1web shows by enqueueing c1u twice)
two workers interleaved between check and mark both fetch it: the URL
appears twice in the fetch log. -/
theorem c1_counterexample_double_fetch :
    ((vrun [0, 1, 0, 1, 0, 1, 0, 1] c1vinit).1).fetchLog = [c1u, c1u] ∧
    ((vrun [0, 1, 0, 1, 0, 1, 0, 1] c1vinit).1).fetchLog.count c1u = 2 ∧
    (crawl_website c1web 5 c1seed none 1000000 0).enqueueLog = [(c1u, 1), (c1u, 1)] := by
  refine ⟨?_, ?_, ?_⟩ <;> decide

/-- C3 (amended): add_scraped_link has compare-and-set semantics: one call
returns true exactly when the link was absent, it records the link, and a
repeated call with the same link returns false; the visited-set interface,
in contrast, is a separate boolean is_visited and a void add_visited_url,
whose composition is not one atomic operation, so callers do need external
coordination for at-most-once processing. -/
theorem c3_add_scraped_link_cas (st : CrawlerState) (l k : Str) :
    ((st.add_scraped_link l).2 = true ↔ l ∉ st.scraped_whatsapp_links) ∧
    (st.add_scraped_link l).1.scraped_whatsapp_links =
      insert l st.scraped_whatsapp_links ∧
    ((st.add_scraped_link l).1.add_scraped_link l).2 = false ∧
    (st.add_visited_url k).is_visited k = true := by
  unfold CrawlerState.add_scraped_link CrawlerState.add_visited_url CrawlerState.is_visited
  by_cases h : l ∈ st.scraped_whatsapp_links
  · simp [h, Finset.insert_eq_self.2 h]
  · simp [h]

/-- C3 counterexample: the caller-visible mark-visited operation is the
pair is_visited then add_visited_url (the latter returns no boolean), and
without external locking two interleaved callers both pass the check for
the same fresh key and both proceed to fetch it: at-most-once processing
fails. -/
theorem c3_counterexample_check_mark_race :
    ((vrun [0, 1, 0, 1, 0, 1, 0, 1] c3vinit).1).fetchLog = [c3u, c3u] ∧
    ¬ ((vrun [0, 1, 0, 1, 0, 1, 0, 1] c3vinit).1).fetchLog.Nodup := by
  constructor <;> decide

/-! ## The politeness machine -/

/-- A serialized politeness iteration wakes at some time no earlier than
the stored last-request time plus politeness_delay and no earlier than the
current clock, then stores that time and logs the request at it. -/
theorem pAtomicIter_eq (sh : PShared) (d : Str) :
    ∃ c1 : ℚ,
      pAtomicIter sh d =
        { cs := sh.cs.update_last_request_time d c1, clock := c1,
          reqLog := sh.reqLog ++ [(d, c1)] } ∧
      sh.cs.get_last_request_time d + politeness_delay ≤ c1 ∧ sh.clock ≤ c1 := by
  rcases sh with ⟨cs, clock, log⟩
  by_cases h : clock - cs.get_last_request_time d < politeness_delay
  · refine ⟨cs.get_last_request_time d + politeness_delay, ?_, le_refl _, by linarith⟩
    simp [pAtomicIter, pstep, h]
  · refine ⟨clock, ?_, by linarith, le_refl _⟩
    simp [pAtomicIter, pstep, h]

/-- Reading the stored time after an update. -/
theorem get_after_update (cs : CrawlerState) (d x : Str) (t : ℚ) :
    (cs.update_last_request_time d t).get_last_request_time x =
      if x = d then t else cs.get_last_request_time x := rfl

/-- One serialized politeness iteration preserves the gap invariant: logged
requests to one origin are politeness_delay apart, each logged time is at
most the stored time of its origin, and every stored time is at most the
clock. -/
theorem pAtomicIter_inv (sh : PShared) (d : Str)
    (h1 : sh.reqLog.Pairwise gapOK)
    (h2 : ∀ p ∈ sh.reqLog, p.2 ≤ sh.cs.get_last_request_time p.1)
    (h3 : ∀ x, sh.cs.get_last_request_time x ≤ sh.clock) :
    (pAtomicIter sh d).reqLog.Pairwise gapOK ∧
    (∀ p ∈ (pAtomicIter sh d).reqLog,
      p.2 ≤ (pAtomicIter sh d).cs.get_last_request_time p.1) ∧
    (∀ x, (pAtomicIter sh d).cs.get_last_request_time x ≤ (pAtomicIter sh d).clock) := by
  obtain ⟨c1, heq, hb1, hb2⟩ := pAtomicIter_eq sh d
  rw [heq]
  have hd0 : (0 : ℚ) ≤ politeness_delay := by norm_num [politeness_delay]
  refine ⟨?_, ?_, ?_⟩
  · rw [List.pairwise_append]
    refine ⟨h1, List.pairwise_singleton _ _, ?_⟩
    intro a ha b hb
    simp only [List.mem_singleton] at hb
    subst hb
    intro hdom
    have ha2 := h2 a ha
    rw [hdom] at ha2
    show a.2 + politeness_delay ≤ c1
    linarith
  · intro p hp
    rw [get_after_update]
    rcases List.mem_append.1 hp with h | h
    · by_cases hx : p.1 = d
      · rw [if_pos hx]
        have hp2 := h2 p h
        rw [hx] at hp2
        linarith
      · rw [if_neg hx]
        exact h2 p h
    · simp only [List.mem_singleton] at h
      subst h
      simp
  · intro x
    rw [get_after_update]
    by_cases hx : x = d
    · rw [if_pos hx]
    · rw [if_neg hx]
      exact le_trans (h3 x) hb2

/-- The gap invariant holds along a sequential run with nonnegative ambient
clock advances. -/
theorem pSeqRun_inv : ∀ (steps : List (Str × ℚ)) (sh : PShared),
    (∀ p ∈ steps, 0 ≤ p.2) →
    sh.reqLog.Pairwise gapOK →
    (∀ p ∈ sh.reqLog, p.2 ≤ sh.cs.get_last_request_time p.1) →
    (∀ x, sh.cs.get_last_request_time x ≤ sh.clock) →
    (pSeqRun steps sh).reqLog.Pairwise gapOK := by
  intro steps
  induction steps with
  | nil => intro sh _ h1 _ _; exact h1
  | cons p rest ih =>
    rcases p with ⟨d, eps⟩
    intro sh hs h1 h2 h3
    have heps : 0 ≤ eps := hs (d, eps) (List.mem_cons_self _ _)
    have h3a : ∀ x, ({ sh with clock := sh.clock + eps } : PShared).cs.get_last_request_time x ≤
        ({ sh with clock := sh.clock + eps } : PShared).clock := by
      intro x
      refine le_trans (h3 x) ?_
      show sh.clock ≤ sh.clock + eps
      linarith
    have hinv := pAtomicIter_inv { sh with clock := sh.clock + eps } d h1 h2 h3a
    exact ih _ (fun q hq => hs q (List.mem_cons_of_mem _ hq)) hinv.1 hinv.2.1 hinv.2.2

/-- C2 (amended): the read and the write of an origin's last-request time
are each individually atomic, and when the read-check-sleep-write sequence
of lines 421 to 425 runs without interleaving (as for a single worker), any
two requests to the same origin are at least politeness_delay apart; the
sequence spans several critical sections though, so the bound does not
extend to interleaved workers. -/
theorem c2_politeness_serialized (steps : List (Str × ℚ)) (c0 : ℚ)
    (hc0 : 0 ≤ c0) (hsteps : ∀ p ∈ steps, 0 ≤ p.2) :
    ((pSeqRun steps ⟨initCrawlerState, c0, []⟩).reqLog).Pairwise gapOK := by
  apply pSeqRun_inv steps _ hsteps
  · exact List.Pairwise.nil
  · intro p hp
    cases hp
  · intro x
    exact hc0

/-- Witness for the amended C2 at concrete inputs. -/
theorem c2_politeness_serialized_witness :
    ((pSeqRun [(c2d, 0), (c2d, 0)] ⟨initCrawlerState, 0, []⟩).reqLog).Pairwise gapOK :=
  c2_politeness_serialized [(c2d, 0), (c2d, 0)] 0 (by decide) (by decide)

/-- C2 counterexample: two workers targeting the same origin interleave
between the read and the write of its last-request time: both observe an
elapsed interval and proceed, issuing two requests to that origin at the
same instant, a gap of zero, below politeness_delay. -/
theorem c2_counterexample_same_origin_zero_gap :
    ((prun [0, 1, 0, 1, 0, 1, 0, 1] c2pinit).1).reqLog = [(c2d, 5), (c2d, 5)] ∧
    ¬ gapOK (c2d, (5 : ℚ)) (c2d, 5) := by
  constructor
  · have hlt : ¬ ((5 : ℚ) - 0 < politeness_delay) := by norm_num [politeness_delay]
    simp only [prun, List.foldl_cons, List.foldl_nil, prunStep, pstep, c2pinit,
      List.getElem?_cons_zero, List.getElem?_cons_succ, List.set_cons_zero,
      List.set_cons_succ, CrawlerState.get_last_request_time,
      CrawlerState.update_last_request_time, initCrawlerState, if_neg hlt]
    simp
  · intro h
    have h5 := h rfl
    simp only [politeness_delay] at h5
    norm_num at h5

/-! ## The sequential crawl loop -/

/-- The loop does nothing once the stop event is set or the queue is
empty. -/
theorem crawlRun_halt (web : Str → PageFetch) (md : Option Nat) (mp : Nat) (bd : Str) :
    ∀ (n : Nat) (s : CrawlState), s.stop = true ∨ s.queue = [] →
      crawlRun web md mp bd n s = s := by
  intro n s h
  cases n with
  | zero => rfl
  | succ n =>
    simp only [crawlRun]
    rw [if_pos h]

/-- One add_scraped_link call never removes links. -/
theorem add_scraped_link_subset (st : CrawlerState) (l : Str) :
    st.scraped_whatsapp_links ⊆ (st.add_scraped_link l).1.scraped_whatsapp_links := by
  unfold CrawlerState.add_scraped_link
  by_cases hm : l ∉ st.scraped_whatsapp_links
  · rw [if_pos hm]
    exact Finset.subset_insert _ _
  · rw [if_neg hm]

/-- The link-recording loop of lines 436 to 440 never removes links. -/
theorem scraped_subset_foldl_add (links : List Str) :
    ∀ (st : CrawlerState) (A : Finset Str), A ⊆ st.scraped_whatsapp_links →
      A ⊆ (links.foldl (fun acc l => if WHATSAPP_DOMAIN.isPrefixOf l
        then (acc.add_scraped_link l).1 else acc) st).scraped_whatsapp_links := by
  induction links with
  | nil => intro st A hA; exact hA
  | cons a tl ih =>
    intro st A hA
    rw [List.foldl_cons]
    refine ih _ A (Finset.Subset.trans hA ?_)
    by_cases hc : WHATSAPP_DOMAIN.isPrefixOf a = true
    · rw [if_pos hc]
      exact add_scraped_link_subset st a
    · rw [if_neg hc]

/-- One worker iteration never removes links from the shared result set. -/
theorem crawler_worker_step_scraped_mono (web : Str → PageFetch) (md : Option Nat)
    (mp : Nat) (bd : Str) (s : CrawlState) :
    s.st.scraped_whatsapp_links ⊆
      (crawler_worker_step web md mp bd s).st.scraped_whatsapp_links := by
  rcases s with ⟨q, st, clock, fl, el, pc, stp⟩
  cases q with
  | nil => exact fun x hx => hx
  | cons head rest =>
    rcases head with ⟨u, depth⟩
    unfold crawler_worker_step
    dsimp only
    split
    · exact fun x hx => hx
    · split
      · exact fun x hx => hx
      · apply scraped_subset_foldl_add
        exact fun x hx => hx

/-- The whole loop never removes links from the shared result set. -/
theorem crawlRun_scraped_mono (web : Str → PageFetch) (md : Option Nat) (mp : Nat)
    (bd : Str) : ∀ (n : Nat) (s : CrawlState),
    s.st.scraped_whatsapp_links ⊆ (crawlRun web md mp bd n s).st.scraped_whatsapp_links := by
  intro n
  induction n with
  | zero => intro s; exact fun x hx => hx
  | succ n ih =>
    intro s
    simp only [crawlRun]
    by_cases hh : s.stop = true ∨ s.queue = []
    · rw [if_pos hh]
    · rw [if_neg hh]
      exact Finset.Subset.trans (crawler_worker_step_scraped_mono web md mp bd s) (ih _)

/-- C7: per-URL failures are local. The result set only ever grows along
the loop, so every link collected before a later failure is in the final
returned set; and an iteration whose scrape fetch fails (scrape returns the
empty list) adds nothing to and removes nothing from the shared result set,
consumes exactly its queue entry, and leaves the stop event untouched
except for the page budget of progress_callback (src/app.py lines 478 to
488 and 597 to 605). -/
theorem c7_failure_local_and_monotone (web : Str → PageFetch) (md : Option Nat)
    (mp : Nat) (bd : Str) :
    (∀ s : CrawlState, s.st.scraped_whatsapp_links ⊆
      (crawler_worker_step web md mp bd s).st.scraped_whatsapp_links) ∧
    (∀ (s : CrawlState) (u : Str) (depth : Nat) (rest : List (Str × Nat)),
      s.queue = (u, depth) :: rest →
      (match md with | some m => decide (m < depth) | none => false) = false →
      s.st.is_visited (normalizeUrl u) = false →
      (web u).scrapeOk = false →
      (crawler_worker_step web md mp bd s).st.scraped_whatsapp_links =
        s.st.scraped_whatsapp_links ∧
      (crawler_worker_step web md mp bd s).stop =
        (s.stop || decide (mp ≤ s.page_count + 1)) ∧
      ∃ nq, (crawler_worker_step web md mp bd s).queue = rest ++ nq) ∧
    (∀ (fuel : Nat) (s : CrawlState), s.st.scraped_whatsapp_links ⊆
      (crawlRun web md mp bd fuel s).st.scraped_whatsapp_links) := by
  refine ⟨crawler_worker_step_scraped_mono web md mp bd, ?_,
    crawlRun_scraped_mono web md mp bd⟩
  intro s u depth rest hq hd hv hf
  unfold crawler_worker_step
  simp only [hq]
  dsimp only
  rw [hd]
  simp only [Bool.false_eq_true, if_false]
  rw [hv]
  simp only [Bool.false_eq_true, if_false]
  rw [hf]
  simp only [Bool.false_eq_true, if_false, List.foldl_nil]
  refine ⟨?_, ?_, ⟨_, rfl⟩⟩
  · rfl
  · trivial

/-- Witness for C7 at a concrete failing fetch. -/
theorem c7_failure_local_and_monotone_witness :
    (crawler_worker_step c7web none 10 c2d c7s).st.scraped_whatsapp_links =
      c7s.st.scraped_whatsapp_links ∧
    (crawler_worker_step c7web none 10 c2d c7s).stop =
      (c7s.stop || decide (10 ≤ c7s.page_count + 1)) ∧
    ∃ nq, (crawler_worker_step c7web none 10 c2d c7s).queue = [] ++ nq :=
  (c7_failure_local_and_monotone c7web none 10 c2d).2.1 c7s c7u 0 [] rfl rfl
    (by decide) rfl

/-- C5 (amended): with max_depth 0 a single-worker crawl fetches exactly
the adjusted seed, enqueues no children and ends with an empty queue; with
max_pages 1 it also fetches exactly the adjusted seed, but the stop check
of progress_callback runs only after the fetch and the discovery step still
executes in the same iteration, so the seed's children are still enqueued
and the two configurations are not identical (src/app.py lines 403 to 405,
444 to 477 and 531 to 541). -/
theorem c5_depth_zero_seed_only (web : Str → PageFetch) (fuel : Nat)
    (start_url : Str) (mp : Nat) (c0 : ℚ)
    (hb : start_url.all Char.isWhitespace = false)
    (hn : (urlparse (adjustSeed start_url)).netloc ≠ []) :
    (crawl_website web (fuel + 1) start_url (some 0) mp c0).fetchLog =
      [adjustSeed start_url] ∧
    (crawl_website web (fuel + 1) start_url (some 0) mp c0).enqueueLog = [] ∧
    (crawl_website web (fuel + 1) start_url (some 0) mp c0).queue = [] ∧
    (crawl_website web (fuel + 1) start_url none 1 c0).fetchLog =
      [adjustSeed start_url] := by
  have hcw : ∀ (md : Option Nat) (mp2 : Nat),
      crawl_website web (fuel + 1) start_url md mp2 c0 =
        crawlRun web md mp2 (replaceWWW (urlparse (adjustSeed start_url)).netloc) (fuel + 1)
          { queue := [(adjustSeed start_url, 0)], st := initCrawlerState, clock := c0,
            fetchLog := [], enqueueLog := [], page_count := 0, stop := false } := by
    intro md mp2
    unfold crawl_website
    dsimp only
    rw [if_neg (by simp [hb]), if_neg hn]
  have hstep0 :
      (crawler_worker_step web (some 0) mp (replaceWWW (urlparse (adjustSeed start_url)).netloc)
        { queue := [(adjustSeed start_url, 0)], st := initCrawlerState, clock := c0,
          fetchLog := [], enqueueLog := [], page_count := 0, stop := false }).queue = [] ∧
      (crawler_worker_step web (some 0) mp (replaceWWW (urlparse (adjustSeed start_url)).netloc)
        { queue := [(adjustSeed start_url, 0)], st := initCrawlerState, clock := c0,
          fetchLog := [], enqueueLog := [], page_count := 0, stop := false }).fetchLog =
        [adjustSeed start_url] ∧
      (crawler_worker_step web (some 0) mp (replaceWWW (urlparse (adjustSeed start_url)).netloc)
        { queue := [(adjustSeed start_url, 0)], st := initCrawlerState, clock := c0,
          fetchLog := [], enqueueLog := [], page_count := 0, stop := false }).enqueueLog = [] := by
    unfold crawler_worker_step
    simp [CrawlerState.is_visited, initCrawlerState]
  have hstep1 :
      (crawler_worker_step web none 1 (replaceWWW (urlparse (adjustSeed start_url)).netloc)
        { queue := [(adjustSeed start_url, 0)], st := initCrawlerState, clock := c0,
          fetchLog := [], enqueueLog := [], page_count := 0, stop := false }).stop = true ∧
      (crawler_worker_step web none 1 (replaceWWW (urlparse (adjustSeed start_url)).netloc)
        { queue := [(adjustSeed start_url, 0)], st := initCrawlerState, clock := c0,
          fetchLog := [], enqueueLog := [], page_count := 0, stop := false }).fetchLog =
        [adjustSeed start_url] := by
    unfold crawler_worker_step
    simp [CrawlerState.is_visited, initCrawlerState]
  have hrun0 : crawlRun web (some 0) mp (replaceWWW (urlparse (adjustSeed start_url)).netloc)
      (fuel + 1)
      { queue := [(adjustSeed start_url, 0)], st := initCrawlerState, clock := c0,
        fetchLog := [], enqueueLog := [], page_count := 0, stop := false } =
      crawler_worker_step web (some 0) mp (replaceWWW (urlparse (adjustSeed start_url)).netloc)
        { queue := [(adjustSeed start_url, 0)], st := initCrawlerState, clock := c0,
          fetchLog := [], enqueueLog := [], page_count := 0, stop := false } := by
    simp only [crawlRun]
    rw [if_neg (by simp)]
    exact crawlRun_halt web (some 0) mp _ fuel _ (Or.inr hstep0.1)
  have hrun1 : crawlRun web none 1 (replaceWWW (urlparse (adjustSeed start_url)).netloc)
      (fuel + 1)
      { queue := [(adjustSeed start_url, 0)], st := initCrawlerState, clock := c0,
        fetchLog := [], enqueueLog := [], page_count := 0, stop := false } =
      crawler_worker_step web none 1 (replaceWWW (urlparse (adjustSeed start_url)).netloc)
        { queue := [(adjustSeed start_url, 0)], st := initCrawlerState, clock := c0,
          fetchLog := [], enqueueLog := [], page_count := 0, stop := false } := by
    simp only [crawlRun]
    rw [if_neg (by simp)]
    exact crawlRun_halt web none 1 _ fuel _ (Or.inl hstep1.1)
  refine ⟨?_, ?_, ?_, ?_⟩
  · rw [hcw (some 0) mp, hrun0]
    exact hstep0.2.1
  · rw [hcw (some 0) mp, hrun0]
    exact hstep0.2.2
  · rw [hcw (some 0) mp, hrun0]
    exact hstep0.1
  · rw [hcw none 1, hrun1]
    exact hstep1.2

/-- Witness for the amended C5 at a concrete crawl. -/
theorem c5_depth_zero_seed_only_witness :
    (crawl_website c5web 3 c5seed (some 0) 7 0).fetchLog = [adjustSeed c5seed] ∧
    (crawl_website c5web 3 c5seed (some 0) 7 0).enqueueLog = [] ∧
    (crawl_website c5web 3 c5seed (some 0) 7 0).queue = [] ∧
    (crawl_website c5web 3 c5seed none 1 0).fetchLog = [adjustSeed c5seed] :=
  c5_depth_zero_seed_only c5web 2 c5seed 7 0 (by decide) (by decide)

/-- C5 counterexample: on a seed page with one crawlable child, the crawl
with max_pages 1 enqueues the child before stopping, while the crawl with
max_depth 0 enqueues nothing: the two configurations do not behave
identically, and the max_pages 1 crawl does not produce zero crawlable
follow-ups. -/
theorem c5_counterexample_maxpages_enqueues_children :
    (crawl_website c5web 5 c5seed none 1 0).enqueueLog = [(c5child, 1)] ∧
    (crawl_website c5web 5 c5seed none 1 0).fetchLog = [c5seed] ∧
    (crawl_website c5web 5 c5seed (some 0) 1000000 0).enqueueLog = [] ∧
    (crawl_website c5web 5 c5seed (some 0) 1000000 0).fetchLog = [c5seed] := by
  refine ⟨?_, ?_, ?_, ?_⟩ <;> decide

end AppPy
